import Mathlib

/-!
Verification of `market_data/real_time_market_data.py` (class `RealTimeMarketData`)
against its natural-language specification.

Shallow embedding conventions:
* A `pd.Timestamp` is either timezone-naive (a wall-clock instant, seconds
  since the Unix epoch, with no timezone attached) or timezone-aware (an
  absolute instant in seconds since the Unix epoch together with a timezone
  label; pandas stores aware timestamps as UTC instants plus a display
  timezone, and `tz_convert` changes only the label, never the instant).
* Exceptions raised by the Python code (`hdbg.dassert_*` failures and the
  pandas `TypeError` raised by `tz_localize` on an already-aware series)
  are modelled with `Except Err`.
* A `pd.DataFrame` is a list of column names plus a list of rows; each row
  is an association list from column name to cell value.
* The database connection is modelled as a function from the SQL query
  string to the resulting table, so that each query the code issues is the
  exact string the code builds.
-/

/-- Errors raised by the embedded code. `invalidTimestamp` is the
`hdateti.dassert_has_tz` failure on a timezone-naive timestamp,
`inconsistentState` is a `hdbg.dassert_eq` failure in `_get_last_end_time`,
and `alreadyTzAware` is the pandas `TypeError` raised by
`Series.dt.tz_localize` on a series that is already timezone-aware. -/
inductive Err where
  | invalidTimestamp
  | inconsistentState
  | alreadyTzAware
  deriving DecidableEq, Repr

/-- A `pd.Timestamp`: either timezone-naive (wall-clock seconds since the
epoch) or timezone-aware (the absolute UTC instant in seconds since the
epoch, plus the display-timezone label). -/
inductive Timestamp where
  | naive (wall : Int)
  | aware (instant : Int) (tz : String)
  deriving DecidableEq, Repr

/-- `Timestamp.tz_convert`: pandas changes the display timezone of an aware
timestamp, keeping the absolute instant. (The source only calls it on
timestamps already checked to be aware, so the naive case keeps the value.) -/
def Timestamp.tz_convert : Timestamp → String → Timestamp
  | .naive w, _ => .naive w
  | .aware i _, tz => .aware i tz

/-- `tz_localize`: pandas attaches a timezone to a naive timestamp, reading
its wall clock in that timezone; on an already-aware value it raises
`TypeError: Already tz-aware, use tz_convert to convert`. The source calls it
only with tz `UTC`, where the UTC instant equals the naive wall clock. -/
def Timestamp.tz_localize : Timestamp → String → Except Err Timestamp
  | .naive w, tz => .ok (.aware w tz)
  | .aware _ _, _ => .error .alreadyTzAware

/-- Civil date from a day count since 1970-01-01 (proleptic Gregorian),
as `(year, month, day)`. -/
def civilFromDays (z : Int) : Int × Int × Int :=
  let z' := z + 719468
  let era := z'.fdiv 146097
  let doe := z' - era * 146097
  let yoe := (doe - doe.fdiv 1460 + doe.fdiv 36524 - doe.fdiv 146096).fdiv 365
  let y := yoe + era * 400
  let doy := doe - (365 * yoe + yoe.fdiv 4 - yoe.fdiv 100)
  let mp := (5 * doy + 2).fdiv 153
  let d := doy - (153 * mp + 2).fdiv 5 + 1
  let m := mp + (if mp < 10 then 3 else -9)
  (y + (if m ≤ 2 then 1 else 0), m, d)

/-- Zero-pad a (nonnegative) field to two digits. -/
def pad2 (n : Int) : String :=
  if n < 10 then "0" ++ toString n else toString n

/-- Render wall-clock seconds since the epoch in the fixed
`strftime("%Y-%m-%d %H:%M:%S")` layout. -/
def renderCivil (secs : Int) : String :=
  let days := secs.fdiv 86400
  let sod := secs - days * 86400
  let ymd := civilFromDays days
  let h := sod.fdiv 3600
  let mi := (sod - h * 3600).fdiv 60
  let s := sod - h * 3600 - mi * 60
  toString ymd.1 ++ "-" ++ pad2 ymd.2.1 ++ "-" ++ pad2 ymd.2.2 ++ " "
    ++ pad2 h ++ ":" ++ pad2 mi ++ ":" ++ pad2 s

/-- `dt.strftime("%Y-%m-%d %H:%M:%S")`: renders the timestamp's wall clock.
The source applies it only after converting to UTC, where the wall clock
equals the stored instant (offset zero), which is what the aware case
renders. -/
def strftimeYmdHms : Timestamp → String
  | .naive w => renderCivil w
  | .aware i _ => renderCivil i

/-- Modelled from the spec: `hdateti.dassert_has_tz` (helpers code, not among
the staged source files) fails with `InvalidTimestampError` when the
timestamp is timezone-naive and passes otherwise. -/
def dassert_has_tz (dt : Timestamp) : Except Err Unit :=
  match dt with
  | .naive _ => .error .invalidTimestamp
  | .aware _ _ => .ok ()

/-- `RealTimeMarketData._to_sql_datetime_string`: asserts the timestamp is
timezone-aware (`hdateti.dassert_has_tz`), converts to UTC (the source's
`dt.tzinfo != hdateti.get_UTC_tz().zone` guard compares a tzinfo object with
the string name of the zone, so it is always true and the conversion always
runs; `tz_convert` to UTC keeps the instant), then renders the fixed format. -/
def _to_sql_datetime_string (dt : Timestamp) : Except Err String := do
  _ ← dassert_has_tz dt
  let dt := dt.tz_convert "UTC"
  pure (strftimeYmdHms dt)

/-- A cell of a `pd.DataFrame`: either a plain numeric value or a timestamp
(as stored by the real-time bar table's datetime columns). -/
inductive Cell where
  | num (n : Int)
  | time (t : Timestamp)
  deriving DecidableEq, Repr

/-- A row: an association list from column name to cell value. -/
abbrev Row := List (String × Cell)

/-- A `pd.DataFrame`: the column names and the rows. -/
structure Df where
  cols : List String
  rows : List Row
  deriving DecidableEq, Repr

/-- Read a row's cell at a column (`df[col]` restricted to one row). -/
def rowGet (r : Row) (col : String) : Cell :=
  (List.lookup col r).getD (.num 0)

/-- Write a row's cell at a column (column assignment `df[col] = srs`
restricted to one row): every pair whose key is `col` gets the new value. -/
def rowSet (r : Row) (col : String) (c : Cell) : Row :=
  r.map (fun p => if p.1 = col then (p.1, c) else p)

/-- `pd.to_datetime` applied to a cell: a timestamp stays itself, a numeric
value parses to a timezone-naive timestamp. -/
def toDatetime : Cell → Timestamp
  | .num n => .naive n
  | .time t => t

/-- One element of the column transformation of `_normalize_data`:
`pd.to_datetime`, then `dt.tz_localize("UTC")` (which raises on an already
timezone-aware value), then `dt.tz_convert("America/New_York")`. -/
def convertCell (c : Cell) : Except Err Cell := do
  let t := toDatetime c
  let t ← t.tz_localize "UTC"
  pure (.time (t.tz_convert "America/New_York"))

/-- Apply the column transformation to each row in order, surfacing the
first raised exception (the elementwise `srs.apply`/`srs.dt` pipeline of
`_normalize_data`, restricted to one column of the row-major frame). -/
def colMapM (col : String) : List Row → Except Err (List Row)
  | [] => .ok []
  | r :: rs => do
    let c ← convertCell (rowGet r col)
    let rest ← colMapM col rs
    pure (rowSet r col c :: rest)

/-- The per-column body of `RealTimeMarketData._normalize_data`: if `col`
is among the frame's columns and the column series is non-empty, apply
`convertCell` to every value of that column and assign the result back. -/
def localizeCol (df : Df) (col : String) : Except Err Df :=
  if col ∈ df.cols then
    if df.rows.isEmpty then pure df
    else do
      let rows ← colMapM col df.rows
      pure { df with rows := rows }
  else pure df

/-- Sort key of a cell: pandas compares stored datetime values by their
underlying instant. -/
def cellKey : Cell → Int
  | .num n => n
  | .time (.naive w) => w
  | .time (.aware i _) => i

/-- Configuration of a `RealTimeMarketData` instance: the constructor
arguments plus the column names inherited from `AbstractMarketData`. -/
structure RealTimeMarketData where
  table_name : String
  where_clause : Option String
  valid_id : Int
  asset_id_col : String
  start_time_col_name : String
  end_time_col_name : String
  deriving DecidableEq, Repr

/-- Modelled from the spec: `AbstractMarketData._normalize_data` (the
`super()._normalize_data(df)` call), whose code is not part of the staged
source files. Per the spec, it sorts the full table by time ascending
(the primary time-ordering column, the bar's end time) and reassigns a dense
zero-based row index discarding any prior index; rows here are positional,
so the reindexing leaves only the sort. -/
def abstractNormalize (self : RealTimeMarketData) (df : Df) : Df :=
  { df with
    rows := df.rows.insertionSort
      (fun r s => cellKey (rowGet r self.end_time_col_name)
        ≤ cellKey (rowGet s self.end_time_col_name)) }

/-- `RealTimeMarketData._normalize_data`: for each of the start-time and
end-time columns present in the frame, localize the column to UTC and
convert it to `America/New_York` (skipped when the series is empty), then
sort in increasing time order and reindex via the superclass. -/
def _normalize_data (self : RealTimeMarketData) (df : Df) : Except Err Df := do
  let df ← localizeCol df self.start_time_col_name
  let df ← localizeCol df self.end_time_col_name
  pure (abstractNormalize self df)

/-- The `columns` handling of `_get_sql_query`: `None` means all columns
(`*`), otherwise the comma-joined explicit list. -/
def columnsAsStr (columns : Option (List String)) : String :=
  match columns with
  | none => "*"
  | some cs => String.intercalate "," cs

/-- The asset-id predicate of `_get_sql_query`: a single id renders as an
equality on the asset-id column, any other length as a comma-joined `in`
clause. -/
def assetIdsStr (self : RealTimeMarketData) (asset_ids : List Int) : String :=
  match asset_ids with
  | [a] => self.asset_id_col ++ "=" ++ toString a
  | _ => self.asset_id_col ++ " in ("
      ++ String.intercalate "," (asset_ids.map toString) ++ ")"

/-- A time-bound fragment of `_get_sql_query`: `AND <ts_col> <op> '<literal>'`
with the literal rendered by `_to_sql_datetime_string`. -/
def boundFrag (ts_col_name op : String) (t : Timestamp) : Except Err String := do
  let lit ← _to_sql_datetime_string t
  pure ("AND " ++ ts_col_name ++ " " ++ op ++ " '" ++ lit ++ "'")

/-- The optional `WHERE <where_clause>` fragment of `_get_sql_query`. -/
def whereFrags (self : RealTimeMarketData) : List String :=
  match self.where_clause with
  | some w => ["WHERE " ++ w]
  | none => []

/-- The optional start-bound fragment of `_get_sql_query`: present when
`start_ts is not None`, with operator `>=` when `left_close` else `>`. -/
def startFrags (ts_col_name : String) (left_close : Bool) :
    Option Timestamp → Except Err (List String)
  | some t => do
    pure [← boundFrag ts_col_name (if left_close then ">=" else ">") t]
  | none => pure []

/-- The optional end-bound fragment of `_get_sql_query`: present when
`end_ts is not None`, with operator `<=` when `right_close` else `<`. -/
def endFrags (ts_col_name : String) (right_close : Bool) :
    Option Timestamp → Except Err (List String)
  | some t => do
    pure [← boundFrag ts_col_name (if right_close then "<=" else "<") t]
  | none => pure []

/-- The optional ordering fragment of `_get_sql_query`. -/
def sortFrags (sort_time : Bool) : List String :=
  if sort_time then ["ORDER BY end_time DESC"] else []

/-- The optional `LIMIT` fragment of `_get_sql_query`. -/
def limitFrags (limit : Option Int) : List String :=
  match limit with
  | some n => ["LIMIT " ++ toString n]
  | none => []

/-- The `query` list built by `RealTimeMarketData._get_sql_query`, fragment
by fragment in the source's append order: `SELECT ... FROM ...`, the
optional `WHERE <where_clause>`, the asset predicate prefixed with `AND `
(unconditionally), the optional start and end bounds with the
closedness-derived operators, the optional `ORDER BY end_time DESC`, and the
optional `LIMIT`. -/
def queryFragments (self : RealTimeMarketData) (columns : Option (List String))
    (start_ts end_ts : Option Timestamp) (ts_col_name : String)
    (asset_ids : List Int) (left_close right_close sort_time : Bool)
    (limit : Option Int) : Except Err (List String) := do
  let s ← startFrags ts_col_name left_close start_ts
  let e ← endFrags ts_col_name right_close end_ts
  pure (["SELECT " ++ columnsAsStr columns ++ " FROM " ++ self.table_name]
    ++ whereFrags self
    ++ ["AND " ++ assetIdsStr self asset_ids]
    ++ s ++ e ++ sortFrags sort_time ++ limitFrags limit)

/-- `RealTimeMarketData._get_sql_query`: the fragments joined with single
spaces. (`hdbg.dassert_isinstance(asset_ids, list)` always holds in the
typed embedding; it is the builder's only check on `asset_ids`.) -/
def _get_sql_query (self : RealTimeMarketData) (columns : Option (List String))
    (start_ts end_ts : Option Timestamp) (ts_col_name : String)
    (asset_ids : List Int) (left_close right_close sort_time : Bool)
    (limit : Option Int) : Except Err String :=
  (queryFragments self columns start_ts end_ts ts_col_name asset_ids
      left_close right_close sort_time limit).map (String.intercalate " ")

/-- The first query of `_get_last_end_time`:
`SELECT MAX(<start col>) FROM <table> WHERE [<where_clause> AND] <asset col> = '<valid id>'`. -/
def lastEndTimeQuery1 (self : RealTimeMarketData) : String :=
  String.intercalate " "
    (["SELECT MAX(" ++ self.start_time_col_name ++ ")",
      "FROM " ++ self.table_name,
      "WHERE"]
      ++ (match self.where_clause with
          | some w => [w ++ " AND"]
          | none => [])
      ++ [self.asset_id_col ++ " = '" ++ toString self.valid_id ++ "'"])

/-- The second query of `_get_last_end_time`, given the fetched start time:
`SELECT <end col> FROM <table> WHERE [<where_clause> AND] <start col> = '<start>' AND <asset col> = '<valid id>'`. -/
def lastEndTimeQuery2 (self : RealTimeMarketData) (start_time : Int) : String :=
  String.intercalate " "
    (["SELECT " ++ self.end_time_col_name,
      "FROM " ++ self.table_name,
      "WHERE"]
      ++ (match self.where_clause with
          | some w => [w ++ " AND"]
          | none => [])
      ++ [self.start_time_col_name ++ " = '" ++ toString start_time ++ "' AND "
          ++ self.asset_id_col ++ " = '" ++ toString self.valid_id ++ "'"])

/-- Addition of a `pd.Timedelta` (in seconds) to a timestamp. -/
def Timestamp.addSecs : Timestamp → Int → Timestamp
  | .naive w, s => .naive (w + s)
  | .aware i z, s => .aware (i + s) z

/-- `RealTimeMarketData._get_last_end_time`, with the database connection
modelled as a function from the query string to the returned table (each
table a list of rows of raw naive-datetime values). The code checks each
result has shape `(1, 1)` (`hdbg.dassert_eq(df.shape, (1, 1))`), coerces the
two fetched values to UTC-aware timestamps (`pd.Timestamp(x, tz="UTC")`),
asserts `end_time == start_time + pd.Timedelta(minutes=1)`, and returns the
end time. -/
def _get_last_end_time (self : RealTimeMarketData)
    (db : String → List (List Int)) : Except Err Timestamp := do
  let df := db (lastEndTimeQuery1 self)
  let start_time ← match df with
    | [[v]] => pure v
    | _ => Except.error Err.inconsistentState
  let df := db (lastEndTimeQuery2 self start_time)
  let end_time ← match df with
    | [[v]] => pure v
    | _ => Except.error Err.inconsistentState
  let start_ts := Timestamp.aware start_time "UTC"
  let end_ts := Timestamp.aware end_time "UTC"
  if end_ts = start_ts.addSecs 60 then pure end_ts
  else Except.error Err.inconsistentState

/-!
Shared concrete instances and helper lemmas.
-/

/-- The configuration of the spec's end-to-end scenario: table `bars`,
filter `interval=60 AND region='AM'`, valid id `17085`, asset-id column
`asset_id`, time columns `start_time` and `end_time`. -/
def stBars : RealTimeMarketData :=
  { table_name := "bars"
    where_clause := some "interval=60 AND region='AM'"
    valid_id := 17085
    asset_id_col := "asset_id"
    start_time_col_name := "start_time"
    end_time_col_name := "end_time" }

/-- The same configuration with no free-form filter clause. -/
def stBarsNoWhere : RealTimeMarketData := { stBars with where_clause := none }

theorem bind_ok_left {α β : Type} (a : α) (f : α → Except Err β) :
    (Except.ok a >>= f) = f a := rfl

theorem bind_error_left {α β : Type} (e : Err) (f : α → Except Err β) :
    ((Except.error e : Except Err α) >>= f) = Except.error e := rfl

theorem pure_eq_ok {α : Type} (a : α) :
    (pure a : Except Err α) = Except.ok a := rfl

theorem queryFragments_ok_iff (self : RealTimeMarketData)
    (columns : Option (List String)) (start_ts end_ts : Option Timestamp)
    (ts_col_name : String) (asset_ids : List Int)
    (left_close right_close sort_time : Bool) (limit : Option Int)
    (fs : List String) :
    queryFragments self columns start_ts end_ts ts_col_name asset_ids
        left_close right_close sort_time limit = .ok fs ↔
      ∃ s e, startFrags ts_col_name left_close start_ts = .ok s
        ∧ endFrags ts_col_name right_close end_ts = .ok e
        ∧ fs = ["SELECT " ++ columnsAsStr columns ++ " FROM " ++ self.table_name]
            ++ whereFrags self ++ ["AND " ++ assetIdsStr self asset_ids]
            ++ s ++ e ++ sortFrags sort_time ++ limitFrags limit := by
  cases h1 : startFrags ts_col_name left_close start_ts <;>
    cases h2 : endFrags ts_col_name right_close end_ts <;>
      simp [queryFragments, h1, h2, bind_ok_left, bind_error_left, eq_comm]

/-!
Claim theorems.
-/

/-- Claim C4: with table `bars`, filter clause `interval=60 AND region='AM'`,
the single asset id 17085, absent start and end timestamps, sort requested
and limit 1 (for any timestamp column name and closedness flags, which are
unused when both bounds are absent), `_get_sql_query` returns exactly
`SELECT * FROM bars WHERE interval=60 AND region='AM' AND asset_id=17085 ORDER BY end_time DESC LIMIT 1`. -/
theorem c4_end_to_end_query (ts_col_name : String) (left_close right_close : Bool) :
    _get_sql_query stBars none none none ts_col_name [17085]
        left_close right_close true (some 1)
      = Except.ok ("SELECT * FROM bars WHERE interval=60 AND region='AM'"
          ++ " AND asset_id=17085 ORDER BY end_time DESC LIMIT 1") := rfl

/-- Claim C7: `_to_sql_datetime_string` raises `InvalidTimestampError` on
every timezone-naive input; on every timezone-aware input it converts to UTC
(the result depends only on the absolute instant, not the display timezone)
and renders the instant in the fixed `YYYY-MM-DD HH:MM:SS` layout; in
particular the timestamp with wall clock `2021-10-07 11:50:00` at offset
`-04:00` (UTC instant 1633621800) renders as `2021-10-07 15:50:00`. -/
theorem c7_to_sql_datetime_string :
    (∀ w : Int, _to_sql_datetime_string (.naive w) = .error .invalidTimestamp)
    ∧ (∀ (i : Int) (tz : String),
        _to_sql_datetime_string (.aware i tz) = .ok (renderCivil i))
    ∧ renderCivil (1633621800 - 4 * 3600) = "2021-10-07 11:50:00"
    ∧ _to_sql_datetime_string (.aware 1633621800 "-04:00")
        = .ok "2021-10-07 15:50:00" :=
  ⟨fun _ => rfl, fun _ _ => rfl, by decide, rfl⟩

/-- Claim C9: whenever sorting is requested, the ordering fragment appended
by `_get_sql_query` is exactly `ORDER BY end_time DESC`, with the fixed
column name `end_time` independent of the caller's `ts_col_name`. -/
theorem c9_order_by_end_time (self : RealTimeMarketData)
    (columns : Option (List String)) (start_ts end_ts : Option Timestamp)
    (ts_col_name : String) (asset_ids : List Int)
    (left_close right_close : Bool) (limit : Option Int) (fs : List String)
    (h : queryFragments self columns start_ts end_ts ts_col_name asset_ids
        left_close right_close true limit = .ok fs) :
    "ORDER BY end_time DESC" ∈ fs := by
  rw [queryFragments_ok_iff] at h
  obtain ⟨s, e, _, _, rfl⟩ := h
  simp [sortFrags]

/-- Witness for C9 at a concrete call. -/
theorem c9_order_by_end_time_witness :
    "ORDER BY end_time DESC" ∈
      ["SELECT * FROM bars", "WHERE interval=60 AND region='AM'",
        "AND asset_id=17085", "ORDER BY end_time DESC", "LIMIT 1"] := by
  exact c9_order_by_end_time stBars none none none "start_time" [17085]
    true true (some 1) _ rfl

theorem startFrags_aware (ts_col_name : String) (left_close : Bool)
    (i : Int) (tz : String) :
    startFrags ts_col_name left_close (some (.aware i tz))
      = .ok ["AND " ++ ts_col_name ++ " " ++ (if left_close then ">=" else ">")
          ++ " '" ++ renderCivil i ++ "'"] := rfl

theorem endFrags_aware (ts_col_name : String) (right_close : Bool)
    (i : Int) (tz : String) :
    endFrags ts_col_name right_close (some (.aware i tz))
      = .ok ["AND " ++ ts_col_name ++ " " ++ (if right_close then "<=" else "<")
          ++ " '" ++ renderCivil i ++ "'"] := rfl

/-- Claim C5: for every present (timezone-aware) time bound and every
combination of the closedness flags, the comparison fragment emitted by
`_get_sql_query` against the caller's timestamp column uses `>=` for a
closed left bound, `>` for an open left bound, `<=` for a closed right
bound, and `<` for an open right bound. -/
theorem c5_closedness_operators (self : RealTimeMarketData)
    (columns : Option (List String)) (ts_col_name : String)
    (asset_ids : List Int) (left_close right_close sort_time : Bool)
    (limit : Option Int) (i1 i2 : Int) (tz1 tz2 : String) (fs : List String)
    (h : queryFragments self columns (some (.aware i1 tz1))
        (some (.aware i2 tz2)) ts_col_name asset_ids left_close right_close
        sort_time limit = .ok fs) :
    ("AND " ++ ts_col_name ++ " " ++ (if left_close then ">=" else ">")
        ++ " '" ++ renderCivil i1 ++ "'") ∈ fs
    ∧ ("AND " ++ ts_col_name ++ " " ++ (if right_close then "<=" else "<")
        ++ " '" ++ renderCivil i2 ++ "'") ∈ fs := by
  rw [queryFragments_ok_iff] at h
  obtain ⟨s, e, hs, he, rfl⟩ := h
  rw [startFrags_aware] at hs
  rw [endFrags_aware] at he
  cases hs
  cases he
  constructor <;> simp

/-- Witness for C5 at a concrete call (left bound open, right bound closed). -/
theorem c5_closedness_operators_witness :
    ("AND start_time " ++ (if false then ">=" else ">") ++ " '1970-01-01 00:01:40'")
      ∈ ["SELECT * FROM bars", "WHERE interval=60 AND region='AM'",
          "AND asset_id=17085", "AND start_time > '1970-01-01 00:01:40'",
          "AND start_time <= '1970-01-01 00:03:20'"]
    ∧ ("AND start_time " ++ (if true then "<=" else "<") ++ " '1970-01-01 00:03:20'")
      ∈ ["SELECT * FROM bars", "WHERE interval=60 AND region='AM'",
          "AND asset_id=17085", "AND start_time > '1970-01-01 00:01:40'",
          "AND start_time <= '1970-01-01 00:03:20'"] := by
  exact c5_closedness_operators stBars none "start_time" [17085] false true
    false none 100 200 "UTC" "UTC" _ rfl

/-- Claim C6: for a single asset id the predicate `_get_sql_query` appends is
an equality on the asset-id column; for more than one id it is an
`in (...)` clause listing exactly those ids, comma-joined in the caller's
order. -/
theorem c6_asset_predicate (self : RealTimeMarketData)
    (columns : Option (List String)) (start_ts end_ts : Option Timestamp)
    (ts_col_name : String) (left_close right_close sort_time : Bool)
    (limit : Option Int) :
    (∀ (a : Int) (fs : List String),
        queryFragments self columns start_ts end_ts ts_col_name [a]
            left_close right_close sort_time limit = .ok fs →
        ("AND " ++ self.asset_id_col ++ "=" ++ toString a) ∈ fs)
    ∧ (∀ (asset_ids : List Int) (fs : List String), 1 < asset_ids.length →
        queryFragments self columns start_ts end_ts ts_col_name asset_ids
            left_close right_close sort_time limit = .ok fs →
        ("AND " ++ self.asset_id_col ++ " in ("
            ++ String.intercalate "," (asset_ids.map toString) ++ ")") ∈ fs) := by
  constructor
  · intro a fs h
    rw [queryFragments_ok_iff] at h
    obtain ⟨s, e, _, _, rfl⟩ := h
    simp [assetIdsStr, String.append_assoc]
  · intro asset_ids fs hlen h
    rw [queryFragments_ok_iff] at h
    obtain ⟨s, e, _, _, rfl⟩ := h
    match asset_ids, hlen with
    | a :: b :: rest, _ => simp [assetIdsStr, String.append_assoc]

/-- Witness for C6 at concrete calls (one id, then two ids order-preserved). -/
theorem c6_asset_predicate_witness :
    ("AND asset_id=17085")
      ∈ ["SELECT * FROM bars", "WHERE interval=60 AND region='AM'",
          "AND asset_id=17085"]
    ∧ ("AND asset_id in (31,17)")
      ∈ ["SELECT * FROM bars", "WHERE interval=60 AND region='AM'",
          "AND asset_id in (31,17)"] := by
  refine ⟨?_, ?_⟩
  · exact (c6_asset_predicate stBars none none none "start_time"
      true true false none).1 17085 _ rfl
  · exact (c6_asset_predicate stBars none none none "start_time"
      true true false none).2 [31, 17] _ (by decide) rfl

theorem assetIdsStr_nil (self : RealTimeMarketData) :
    assetIdsStr self [] = self.asset_id_col ++ " in ()" := by
  have h1 : assetIdsStr self []
      = self.asset_id_col ++ " in (" ++ "" ++ ")" := rfl
  rw [h1, String.append_empty, String.append_assoc]
  exact congrArg (fun z => self.asset_id_col ++ z) (by rfl)

/-- Counterexample to claim C1: with an empty asset-id list `_get_sql_query`
does not raise — it returns a query whose asset predicate is the ill-formed
`asset_id in ()`, so the request proceeds to execution. -/
theorem c1_empty_asset_ids_counterexample :
    _get_sql_query stBars none none none "start_time" []
        true true true (some 1)
      = Except.ok ("SELECT * FROM bars WHERE interval=60 AND region='AM'"
          ++ " AND asset_id in () ORDER BY end_time DESC LIMIT 1") := rfl

/-- Claim C1 as amended: `_get_sql_query` performs no emptiness check on the
asset-id list (its only check is `dassert_isinstance(asset_ids, list)`); for
an empty list it raises nothing and instead appends the ill-formed predicate
`AND <asset col> in ()` to the query it hands to execution. -/
theorem c1_empty_asset_ids_amended (self : RealTimeMarketData)
    (columns : Option (List String)) (start_ts end_ts : Option Timestamp)
    (ts_col_name : String) (left_close right_close sort_time : Bool)
    (limit : Option Int) (fs : List String)
    (h : queryFragments self columns start_ts end_ts ts_col_name []
        left_close right_close sort_time limit = .ok fs) :
    ("AND " ++ self.asset_id_col ++ " in ()") ∈ fs := by
  rw [queryFragments_ok_iff] at h
  obtain ⟨s, e, _, _, rfl⟩ := h
  simp [assetIdsStr, String.append_assoc]
  refine Or.inr (Or.inr (Or.inl ?_))
  exact congrArg (fun z => "AND " ++ (self.asset_id_col ++ z)) (by rfl)

/-- Witness for the amended C1 at a concrete call. -/
theorem c1_empty_asset_ids_amended_witness :
    ("AND asset_id in ()")
      ∈ ["SELECT * FROM bars", "WHERE interval=60 AND region='AM'",
          "AND asset_id in ()", "ORDER BY end_time DESC", "LIMIT 1"] := by
  exact c1_empty_asset_ids_amended stBars none none none "start_time"
    true true true (some 1) _ rfl

theorem startFrags_naive (ts_col_name : String) (left_close : Bool) (w : Int) :
    startFrags ts_col_name left_close (some (.naive w))
      = .error .invalidTimestamp := rfl

theorem endFrags_naive (ts_col_name : String) (right_close : Bool) (w : Int) :
    endFrags ts_col_name right_close (some (.naive w))
      = .error .invalidTimestamp := rfl

theorem startFragsShape {ts_col_name : String} {left_close : Bool}
    {t : Option Timestamp} {s : List String}
    (h : startFrags ts_col_name left_close t = .ok s) :
    ∀ f ∈ s, ∃ x, f = "AND " ++ x := by
  match t with
  | none => cases h; simp
  | some (.naive w) => rw [startFrags_naive] at h; cases h
  | some (.aware i tz) =>
    rw [startFrags_aware] at h
    cases h
    intro f hf
    rw [List.mem_singleton] at hf
    subst hf
    exact ⟨ts_col_name ++ (" " ++ ((if left_close then ">=" else ">")
      ++ (" '" ++ (renderCivil i ++ "'")))), by simp [String.append_assoc]⟩

theorem endFragsShape {ts_col_name : String} {right_close : Bool}
    {t : Option Timestamp} {e : List String}
    (h : endFrags ts_col_name right_close t = .ok e) :
    ∀ f ∈ e, ∃ x, f = "AND " ++ x := by
  match t with
  | none => cases h; simp
  | some (.naive w) => rw [endFrags_naive] at h; cases h
  | some (.aware i tz) =>
    rw [endFrags_aware] at h
    cases h
    intro f hf
    rw [List.mem_singleton] at hf
    subst hf
    exact ⟨ts_col_name ++ (" " ++ ((if right_close then "<=" else "<")
      ++ (" '" ++ (renderCivil i ++ "'")))), by simp [String.append_assoc]⟩

theorem ne_of_head {a b : Char} {x y : String} (hx : x.data.head? = some a)
    (hy : y.data.head? = some b) (hab : a ≠ b) : x ≠ y := by
  intro h
  rw [h] at hx
  rw [hy] at hx
  exact hab (Option.some.inj hx).symm

/-- Claim C10: when the configured filter clause is `None` and the asset-id
list is non-empty, the fragment list `_get_sql_query` joins contains no
`WHERE` fragment at all (no fragment starts with the WHERE keyword), yet the
asset predicate still carries its unconditional `AND ` prefix and stands
directly after the `SELECT ... FROM ...` fragment; at the example call this
joins to `SELECT * FROM bars AND asset_id=17085`. -/
theorem c10_and_without_where :
    (∀ (self : RealTimeMarketData) (columns : Option (List String))
        (start_ts end_ts : Option Timestamp) (ts_col_name : String)
        (asset_ids : List Int) (left_close right_close sort_time : Bool)
        (limit : Option Int) (fs : List String),
      self.where_clause = none → asset_ids ≠ [] →
      queryFragments self columns start_ts end_ts ts_col_name asset_ids
          left_close right_close sort_time limit = .ok fs →
      (∃ rest, fs = ("SELECT " ++ columnsAsStr columns ++ " FROM "
              ++ self.table_name)
            :: ("AND " ++ assetIdsStr self asset_ids) :: rest)
        ∧ ∀ frag ∈ fs, ∀ w : String, frag ≠ "WHERE" ++ w)
    ∧ _get_sql_query stBarsNoWhere none none none "start_time" [17085]
        true true false none
      = Except.ok "SELECT * FROM bars AND asset_id=17085" := by
  constructor
  · intro self columns start_ts end_ts ts_col_name asset_ids
      left_close right_close sort_time limit fs hw _ h
    rw [queryFragments_ok_iff] at h
    obtain ⟨s, e, hs, he, rfl⟩ := h
    refine ⟨⟨s ++ e ++ sortFrags sort_time ++ limitFrags limit, by
      simp [whereFrags, hw]⟩, ?_⟩
    intro frag hf w
    have hsplit : frag = ("SELECT " ++ columnsAsStr columns ++ " FROM "
          ++ self.table_name)
        ∨ frag = ("AND " ++ assetIdsStr self asset_ids)
        ∨ frag ∈ s ∨ frag ∈ e ∨ frag ∈ sortFrags sort_time
        ∨ frag ∈ limitFrags limit := by
      simpa [whereFrags, hw, List.mem_append, or_assoc] using hf
    rcases hsplit with hh | hh | hh | hh | hh | hh
    · subst hh
      exact ne_of_head (a := 'S') (b := 'W') rfl rfl (by decide)
    · subst hh
      exact ne_of_head (a := 'A') (b := 'W') rfl rfl (by decide)
    · obtain ⟨x, rfl⟩ := startFragsShape hs frag hh
      exact ne_of_head (a := 'A') (b := 'W') rfl rfl (by decide)
    · obtain ⟨x, rfl⟩ := endFragsShape he frag hh
      exact ne_of_head (a := 'A') (b := 'W') rfl rfl (by decide)
    · cases sort_time with
      | false => simp [sortFrags] at hh
      | true =>
        rw [sortFrags, if_pos rfl, List.mem_singleton] at hh
        subst hh
        exact ne_of_head (a := 'O') (b := 'W') rfl rfl (by decide)
    · match limit, hh with
      | some n, hh =>
        rw [limitFrags, List.mem_singleton] at hh
        subst hh
        exact ne_of_head (a := 'L') (b := 'W') rfl rfl (by decide)
  · rfl

/-- Witness for C10 at a concrete call with no filter clause. -/
theorem c10_and_without_where_witness :
    (∃ rest, ["SELECT * FROM bars", "AND asset_id=17085"]
        = ("SELECT " ++ columnsAsStr none ++ " FROM " ++ stBarsNoWhere.table_name)
          :: ("AND " ++ assetIdsStr stBarsNoWhere [17085]) :: rest)
    ∧ ∀ frag ∈ ["SELECT * FROM bars", "AND asset_id=17085"],
        ∀ w : String, frag ≠ "WHERE" ++ w := by
  exact (c10_and_without_where.1 stBarsNoWhere none none none "start_time"
    [17085] true true false none _ rfl (by decide) rfl)

theorem localizeCol_empty_rows (cols : List String) (col : String) :
    localizeCol ⟨cols, []⟩ col = .ok ⟨cols, []⟩ := by
  unfold localizeCol
  split <;> simp [pure, Except.pure]

/-- Claim C8: on a zero-row table `_normalize_data` raises nothing, skips
the timezone conversion (the `srs.empty` guard), and returns a zero-row
table with the same columns. -/
theorem c8_normalize_empty_table (self : RealTimeMarketData)
    (cols : List String) :
    _normalize_data self ⟨cols, []⟩ = .ok ⟨cols, []⟩ := by
  unfold _normalize_data
  rw [localizeCol_empty_rows, bind_ok_left, localizeCol_empty_rows,
    bind_ok_left]
  rfl

/-- Claim C2: whenever the two watermark queries return single-cell tables
with start value `s` and end value `e`, `_get_last_end_time` returns the
UTC-aware end time when `e = s + 60` seconds (one one-minute bar) and raises
`InconsistentStateError` otherwise; and whenever either query's result is
not a single-cell table, it raises `InconsistentStateError`. -/
theorem c2_last_end_time (self : RealTimeMarketData)
    (db : String → List (List Int)) :
    (∀ s e : Int, db (lastEndTimeQuery1 self) = [[s]] →
        db (lastEndTimeQuery2 self s) = [[e]] →
        _get_last_end_time self db =
          if e = s + 60 then .ok (.aware e "UTC")
          else .error .inconsistentState)
    ∧ (¬ (∃ v : Int, db (lastEndTimeQuery1 self) = [[v]]) →
        _get_last_end_time self db = .error .inconsistentState)
    ∧ (∀ s : Int, db (lastEndTimeQuery1 self) = [[s]] →
        ¬ (∃ v : Int, db (lastEndTimeQuery2 self s) = [[v]]) →
        _get_last_end_time self db = .error .inconsistentState) := by
  refine ⟨?_, ?_, ?_⟩
  · intro s e h1 h2
    by_cases he : e = s + 60
    · simp [_get_last_end_time, h1, h2, Timestamp.addSecs, he, bind_ok_left, bind_error_left, pure_eq_ok]
    · simp [_get_last_end_time, h1, h2, Timestamp.addSecs, he, bind_ok_left, bind_error_left, pure_eq_ok]
  · intro hno
    match hdf : db (lastEndTimeQuery1 self) with
    | [[v]] => exact absurd ⟨v, hdf⟩ hno
    | [] => simp [_get_last_end_time, hdf, bind_error_left]
    | [] :: t => simp [_get_last_end_time, hdf, bind_error_left]
    | (v :: w :: rv) :: t => simp [_get_last_end_time, hdf, bind_error_left]
    | [v] :: r2 :: t => simp [_get_last_end_time, hdf, bind_error_left]
  · intro s h1 hno
    match hdf : db (lastEndTimeQuery2 self s) with
    | [[v]] => exact absurd ⟨v, hdf⟩ hno
    | [] => simp [_get_last_end_time, h1, hdf, bind_error_left]
    | [] :: t => simp [_get_last_end_time, h1, hdf, bind_error_left]
    | (v :: w :: rv) :: t => simp [_get_last_end_time, h1, hdf, bind_error_left]
    | [v] :: r2 :: t => simp [_get_last_end_time, h1, hdf, bind_error_left]

/-- Witness for C2: a consistent synthetic store returns the UTC-aware end
time, and an empty store raises. -/
theorem c2_last_end_time_witness :
    _get_last_end_time stBars
        (fun q => if q = lastEndTimeQuery1 stBars then [[1633621740]]
          else if q = lastEndTimeQuery2 stBars 1633621740 then [[1633621800]]
          else [])
      = .ok (.aware 1633621800 "UTC")
    ∧ _get_last_end_time stBars (fun _ => [])
      = .error .inconsistentState := by
  constructor
  · have h := (c2_last_end_time stBars
      (fun q => if q = lastEndTimeQuery1 stBars then [[1633621740]]
        else if q = lastEndTimeQuery2 stBars 1633621740 then [[1633621800]]
        else [])).1 1633621740 1633621800 (by rfl) (by rfl)
    simpa using h
  · exact (c2_last_end_time stBars (fun _ => [])).2.1 (by simp)

theorem normalize_empty (self : RealTimeMarketData) (cols : List String) :
    _normalize_data self ⟨cols, []⟩ = .ok ⟨cols, []⟩ := by
  unfold _normalize_data
  rw [localizeCol_empty_rows, bind_ok_left, localizeCol_empty_rows,
    bind_ok_left]
  rfl

theorem lookup_cons_triv {β : Type} (k : String) (v : β)
    (t : List (String × β)) : List.lookup k ((k, v) :: t) = some v := by
  simp [List.lookup]

theorem lookup_cons_skip {β : Type} {a k : String} (v : β)
    (t : List (String × β)) (h : a ≠ k) :
    List.lookup a ((k, v) :: t) = List.lookup a t := by
  have hb : (a == k) = false := by
    simp only [beq_eq_false_iff_ne, ne_eq]
    exact h
  simp [List.lookup, hb]

theorem rowSet_cons (k : String) (v : Cell) (t : Row) (col : String)
    (c : Cell) :
    rowSet ((k, v) :: t) col c
      = (if k = col then (k, c) else (k, v)) :: rowSet t col c := rfl

theorem lookup_rowSet_self {col : String} {c : Cell} : ∀ {r : Row},
    (List.lookup col r).isSome → List.lookup col (rowSet r col c) = some c := by
  intro r
  induction r with
  | nil => intro h; simp [List.lookup] at h
  | cons p t ih =>
    obtain ⟨k, v⟩ := p
    intro h
    rw [rowSet_cons]
    by_cases hp : k = col
    · subst hp
      rw [if_pos rfl, lookup_cons_triv]
    · rw [if_neg hp, lookup_cons_skip _ _ (fun hc => hp hc.symm)]
      rw [lookup_cons_skip _ _ (fun hc => hp hc.symm)] at h
      exact ih h

theorem lookup_rowSet_other {col col' : String} {c : Cell}
    (hne : col ≠ col') : ∀ {r : Row},
    List.lookup col (rowSet r col' c) = List.lookup col r := by
  intro r
  induction r with
  | nil => rfl
  | cons p t ih =>
    obtain ⟨k, v⟩ := p
    rw [rowSet_cons]
    by_cases hp : k = col'
    · subst hp
      rw [if_pos rfl, lookup_cons_skip _ _ hne, lookup_cons_skip _ _ hne]
      exact ih
    · rw [if_neg hp]
      by_cases hq : col = k
      · subst hq
        rw [lookup_cons_triv, lookup_cons_triv]
      · rw [lookup_cons_skip _ _ hq, lookup_cons_skip _ _ hq]
        exact ih

theorem convertCell_ok_aware {c c' : Cell} (h : convertCell c = .ok c') :
    ∃ i, c' = .time (.aware i "America/New_York") := by
  match c with
  | .num n => exact ⟨n, (Except.ok.inj h).symm⟩
  | .time (.naive w) => exact ⟨w, (Except.ok.inj h).symm⟩
  | .time (.aware i z) => exact Except.noConfusion h

theorem convertCell_aware_err (i : Int) (tz : String) :
    convertCell (.time (.aware i tz)) = .error .alreadyTzAware := rfl

theorem colMapM_ok {col : String} : ∀ {rows rows' : List Row},
    colMapM col rows = .ok rows' →
    rows'.length = rows.length ∧
      ∀ r' ∈ rows', ∃ r ∈ rows, ∃ c,
        convertCell (rowGet r col) = .ok c ∧ r' = rowSet r col c := by
  intro rows
  induction rows with
  | nil =>
    intro rows' h
    cases Except.ok.inj h
    simp
  | cons r rs ih =>
    intro rows' h
    cases hc : convertCell (rowGet r col) with
    | error e => simp [colMapM, hc, bind_error_left] at h
    | ok c =>
      cases hrest : colMapM col rs with
      | error e => simp [colMapM, hc, hrest, bind_ok_left, bind_error_left] at h
      | ok rest =>
        have h' : rowSet r col c :: rest = rows' := by
          have := h
          simp [colMapM, hc, hrest, bind_ok_left, pure_eq_ok] at this
          exact this
        subst h'
        obtain ⟨hlen, hmem⟩ := ih hrest
        refine ⟨by simp [hlen], ?_⟩
        intro r' hr'
        rcases List.mem_cons.1 hr' with h0 | h0
        · exact ⟨r, by simp, c, hc, h0⟩
        · obtain ⟨r0, hr0, c0, hc0, rfl⟩ := hmem r' h0
          exact ⟨r0, by simp [hr0], c0, hc0, rfl⟩

theorem localizeCol_ok_cases {df : Df} {col : String} {d : Df}
    (h : localizeCol df col = .ok d) :
    d.cols = df.cols ∧ d.rows.length = df.rows.length ∧
      (d = df ∨ ∃ rows', colMapM col df.rows = .ok rows'
        ∧ d = { df with rows := rows' }) := by
  unfold localizeCol at h
  by_cases h1 : col ∈ df.cols
  · rw [if_pos h1] at h
    by_cases h2 : df.rows.isEmpty
    · rw [if_pos h2, pure_eq_ok] at h
      obtain rfl := (Except.ok.inj h).symm
      exact ⟨rfl, rfl, Or.inl rfl⟩
    · rw [if_neg h2] at h
      cases hm : colMapM col df.rows with
      | error e => rw [hm, bind_error_left] at h; exact Except.noConfusion h
      | ok rows' =>
        rw [hm, bind_ok_left, pure_eq_ok] at h
        obtain rfl := (Except.ok.inj h).symm
        exact ⟨rfl, (colMapM_ok hm).1, Or.inr ⟨rows', rfl, rfl⟩⟩
  · rw [if_neg h1, pure_eq_ok] at h
    obtain rfl := (Except.ok.inj h).symm
    exact ⟨rfl, rfl, Or.inl rfl⟩

theorem localizeCol_ok_aware {df : Df} {col : String} {d : Df}
    (h : localizeCol df col = .ok d) (hcol : col ∈ df.cols)
    (hne : ¬ df.rows.isEmpty)
    (hsome : ∀ r ∈ df.rows, (List.lookup col r).isSome) :
    ∀ r' ∈ d.rows, ∃ i,
      List.lookup col r' = some (.time (.aware i "America/New_York")) := by
  unfold localizeCol at h
  rw [if_pos hcol, if_neg hne] at h
  cases hm : colMapM col df.rows with
  | error e => rw [hm, bind_error_left] at h; exact Except.noConfusion h
  | ok rows' =>
    rw [hm, bind_ok_left, pure_eq_ok] at h
    cases Except.ok.inj h
    intro r' hr'
    obtain ⟨r, hr, c, hc, rfl⟩ := (colMapM_ok hm).2 r' hr'
    obtain ⟨i, rfl⟩ := convertCell_ok_aware hc
    exact ⟨i, lookup_rowSet_self (hsome r hr)⟩

theorem localizeCol_err_of_aware {df : Df} {col : String}
    (hcol : col ∈ df.cols) (hne : ¬ df.rows.isEmpty)
    (haw : ∀ r ∈ df.rows, ∃ i,
      List.lookup col r = some (.time (.aware i "America/New_York"))) :
    localizeCol df col = .error .alreadyTzAware := by
  unfold localizeCol
  rw [if_pos hcol, if_neg hne]
  match hrows : df.rows with
  | [] => exact absurd hrows (by simpa using hne)
  | r0 :: rest =>
    obtain ⟨i, hi⟩ := haw r0 (by rw [hrows]; simp)
    have hget : rowGet r0 col = .time (.aware i "America/New_York") := by
      rw [rowGet, hi]
      rfl
    show (colMapM col (r0 :: rest) >>= fun rows =>
      pure { df with rows := rows }) = _
    rw [show colMapM col (r0 :: rest)
        = (convertCell (rowGet r0 col) >>= fun c =>
            colMapM col rest >>= fun rest' =>
              pure (rowSet r0 col c :: rest')) from rfl]
    rw [hget, convertCell_aware_err, bind_error_left, bind_error_left]

theorem localizeCol_preserves_aware {df : Df} {col col' : String} {d : Df}
    (h : localizeCol df col' = .ok d)
    (haw : ∀ r ∈ df.rows, ∃ i,
      List.lookup col r = some (.time (.aware i "America/New_York")))
    (hne : col ≠ col') :
    ∀ r' ∈ d.rows, ∃ i,
      List.lookup col r' = some (.time (.aware i "America/New_York")) := by
  rcases (localizeCol_ok_cases h).2.2 with rfl | ⟨rows', hm, rfl⟩
  · exact haw
  · intro r' hr'
    obtain ⟨r, hr, c, _, rfl⟩ := (colMapM_ok hm).2 r' hr'
    obtain ⟨i, hi⟩ := haw r hr
    exact ⟨i, by rw [lookup_rowSet_other hne]; exact hi⟩

theorem localizeCol_not_mem {df : Df} {col : String} (h : col ∉ df.cols) :
    localizeCol df col = .ok df := by
  unfold localizeCol
  rw [if_neg h, pure_eq_ok]

theorem abstractNormalize_cols (self : RealTimeMarketData) (df : Df) :
    (abstractNormalize self df).cols = df.cols := rfl

theorem abstractNormalize_mem {self : RealTimeMarketData} {df : Df} :
    ∀ r ∈ (abstractNormalize self df).rows, r ∈ df.rows := by
  intro r hr
  exact (List.perm_insertionSort _ _).mem_iff.mp hr

theorem abstractNormalize_length (self : RealTimeMarketData) (df : Df) :
    (abstractNormalize self df).rows.length = df.rows.length :=
  List.length_insertionSort _ _

theorem abstractNormalize_idem (self : RealTimeMarketData) (df : Df) :
    abstractNormalize self (abstractNormalize self df)
      = abstractNormalize self df := by
  unfold abstractNormalize
  congr 1
  haveI : IsTotal Row (fun r s => cellKey (rowGet r self.end_time_col_name)
      ≤ cellKey (rowGet s self.end_time_col_name)) :=
    ⟨fun a b => le_total _ _⟩
  haveI : IsTrans Row (fun r s => cellKey (rowGet r self.end_time_col_name)
      ≤ cellKey (rowGet s self.end_time_col_name)) :=
    ⟨fun a b c hab hbc => le_trans hab hbc⟩
  exact List.Sorted.insertionSort_eq (List.sorted_insertionSort _ _)

theorem rows_ne_of_length {l l' : List Row} (h : l'.length = l.length)
    (hne : l ≠ []) : l' ≠ [] := by
  intro h0
  subst h0
  exact hne (List.length_eq_zero.mp h.symm)

theorem not_isEmpty_of_ne {l : List Row} (h : l ≠ []) : ¬ l.isEmpty := by
  cases l with
  | nil => exact absurd rfl h
  | cons a t => simp

/-- A one-bar table with a `start_time` column, as returned by the store. -/
def dfBar : Df :=
  ⟨["start_time", "vol"],
    [[("start_time", .time (.naive 60)), ("vol", .num 5)]]⟩

/-- Counterexample to claim C3: on the non-empty table `dfBar` one
application of `_normalize_data` succeeds (the column becomes timezone-aware),
but the second application raises the pandas already-tz-aware `TypeError`
from `tz_localize`, so normalize-twice is not normalize-once. -/
theorem c3_normalize_idem_counterexample :
    (_normalize_data stBars dfBar).bind (_normalize_data stBars)
        = .error .alreadyTzAware
    ∧ _normalize_data stBars dfBar
        = .ok ⟨["start_time", "vol"],
            [[("start_time", .time (.aware 60 "America/New_York")),
              ("vol", .num 5)]]⟩ :=
  ⟨rfl, rfl⟩

/-- Claim C3 as amended: `_normalize_data` applied twice equals
`_normalize_data` applied once for zero-row tables and for tables containing
neither time column; but for a non-empty table whose rows carry the
start-time column, a successful first normalization makes the second raise
the pandas already-tz-aware `TypeError` (from `tz_localize` on the already
converted column) instead of being a no-op. -/
theorem c3_normalize_idem_amended :
    (∀ (self : RealTimeMarketData) (cols : List String),
        (_normalize_data self ⟨cols, []⟩).bind (_normalize_data self)
          = _normalize_data self ⟨cols, []⟩)
    ∧ (∀ (self : RealTimeMarketData) (df : Df),
        self.start_time_col_name ∉ df.cols →
        self.end_time_col_name ∉ df.cols →
        (_normalize_data self df).bind (_normalize_data self)
          = _normalize_data self df)
    ∧ (∀ (self : RealTimeMarketData) (df out : Df),
        df.rows ≠ [] → self.start_time_col_name ∈ df.cols →
        (∀ r ∈ df.rows, (List.lookup self.start_time_col_name r).isSome) →
        _normalize_data self df = .ok out →
        _normalize_data self out = .error .alreadyTzAware) := by
  refine ⟨?_, ?_, ?_⟩
  · intro self cols
    rw [normalize_empty]
    have hb : (Except.ok (⟨cols, []⟩ : Df)).bind (_normalize_data self)
        = _normalize_data self ⟨cols, []⟩ := rfl
    rw [hb, normalize_empty]
  · intro self df hs he
    have h1 : _normalize_data self df = .ok (abstractNormalize self df) := by
      unfold _normalize_data
      rw [localizeCol_not_mem hs, bind_ok_left, localizeCol_not_mem he,
        bind_ok_left, pure_eq_ok]
    have hs2 : self.start_time_col_name ∉ (abstractNormalize self df).cols := by
      rw [abstractNormalize_cols]
      exact hs
    have he2 : self.end_time_col_name ∉ (abstractNormalize self df).cols := by
      rw [abstractNormalize_cols]
      exact he
    have h2 : _normalize_data self (abstractNormalize self df)
        = .ok (abstractNormalize self (abstractNormalize self df)) := by
      unfold _normalize_data
      rw [localizeCol_not_mem hs2, bind_ok_left, localizeCol_not_mem he2,
        bind_ok_left, pure_eq_ok]
    rw [h1]
    have hb : (Except.ok (abstractNormalize self df)).bind (_normalize_data self)
        = _normalize_data self (abstractNormalize self df) := rfl
    rw [hb, h2, abstractNormalize_idem]
  · intro self df out hne hmem hsome hok
    have hne' : ¬ df.rows.isEmpty := not_isEmpty_of_ne hne
    unfold _normalize_data at hok
    cases h1 : localizeCol df self.start_time_col_name with
    | error e =>
      rw [h1, bind_error_left] at hok
      exact Except.noConfusion hok
    | ok d1 =>
      rw [h1, bind_ok_left] at hok
      cases h2 : localizeCol d1 self.end_time_col_name with
      | error e =>
        rw [h2, bind_error_left] at hok
        exact Except.noConfusion hok
      | ok d2 =>
        rw [h2, bind_ok_left, pure_eq_ok] at hok
        obtain rfl := (Except.ok.inj hok).symm
        have hc1 := localizeCol_ok_cases h1
        have haw1 := localizeCol_ok_aware h1 hmem hne' hsome
        have hne1 : d1.rows ≠ [] := rows_ne_of_length hc1.2.1 hne
        by_cases hEq : self.end_time_col_name = self.start_time_col_name
        · have hmem1 : self.end_time_col_name ∈ d1.cols := by
            rw [hc1.1, hEq]
            exact hmem
          have haw1' : ∀ r ∈ d1.rows, ∃ i,
              List.lookup self.end_time_col_name r
                = some (.time (.aware i "America/New_York")) := by
            rw [hEq]
            exact haw1
          rw [localizeCol_err_of_aware hmem1 (not_isEmpty_of_ne hne1) haw1']
            at h2
          exact Except.noConfusion h2
        · have haw2 := localizeCol_preserves_aware h2 haw1
            (fun hc => hEq hc.symm)
          have hc2 := localizeCol_ok_cases h2
          have hmemOut : self.start_time_col_name
              ∈ (abstractNormalize self d2).cols := by
            rw [abstractNormalize_cols, hc2.1, hc1.1]
            exact hmem
          have hneOut : (abstractNormalize self d2).rows ≠ [] := by
            refine rows_ne_of_length ?_ hne
            rw [abstractNormalize_length, hc2.2.1, hc1.2.1]
          have hawOut : ∀ r ∈ (abstractNormalize self d2).rows, ∃ i,
              List.lookup self.start_time_col_name r
                = some (.time (.aware i "America/New_York")) := by
            intro r hr
            exact haw2 r (abstractNormalize_mem r hr)
          unfold _normalize_data
          rw [localizeCol_err_of_aware hmemOut (not_isEmpty_of_ne hneOut)
            hawOut, bind_error_left]

/-- Witness for the amended C3: the empty-table case and the concrete
one-bar table whose second normalization raises. -/
theorem c3_normalize_idem_amended_witness :
    (_normalize_data stBars ⟨["start_time"], []⟩).bind (_normalize_data stBars)
        = _normalize_data stBars ⟨["start_time"], []⟩
    ∧ _normalize_data stBars
        ⟨["start_time", "vol"],
          [[("start_time", .time (.aware 60 "America/New_York")),
            ("vol", .num 5)]]⟩
      = .error .alreadyTzAware := by
  constructor
  · exact c3_normalize_idem_amended.1 stBars ["start_time"]
  · exact c3_normalize_idem_amended.2.2 stBars dfBar
      ⟨["start_time", "vol"],
        [[("start_time", .time (.aware 60 "America/New_York")),
          ("vol", .num 5)]]⟩
      (by decide) (by decide) (by decide) rfl
